import Mathlib

/-!
# Verification of the hotel POS billing system

Shallow embedding of the Python sources `database.py` and `billing_window.py`
of the single-hotel POS application, together with proofs of the specified
properties of the billing calculator, the bill ledger, the room store and the
startup schema migration.

Modelling conventions:

* Python `float` values are modelled by `PyFloat`: an exact rational for every
  finite value, plus the two infinities and NaN.  Finite-float arithmetic is
  modelled exactly by rational arithmetic (the specification only ever speaks
  about the formulas up to 2-decimal rounding), while the special values
  follow IEEE-754 / Python semantics for `*`, `+` and `<=` — in particular
  `float("inf")` and `float("nan")` are values that `float(entry)` can return,
  and `nan <= 0` is `False`.
* A parsed `datetime` (the result of `datetime.strptime(s, "%d-%m-%Y")`, which
  always has a zero time-of-day) is modelled by its proleptic-Gregorian day
  ordinal, an `Int`.  Subtraction `(b - a).days` of two such values is integer
  subtraction and `<=` on them is integer comparison.  `parse_date` wraps the
  external `datetime` library, so a date entry is carried in the model as the
  raw string together with its parse result (`Option Int`, `none` = the
  `ValueError` branch).
* Bill numbers are modelled as lists of characters so that the SQL pattern
  `LIKE 'BILL<date>%'` becomes a computable "starts with" test.
* The SQLite tables are modelled as association lists; `UPDATE ... WHERE`
  updates every matching row, `INSERT` appends, and the primary-key constraint
  on `bills.bill_no` makes `save_bill` fail on a duplicate number.
-/

namespace POS

/-- Python `str.strip()`: drop whitespace from both ends (written over the
underlying character list so that it evaluates inside the kernel). -/
def pyStrip (s : String) : String :=
  ⟨((s.data.dropWhile Char.isWhitespace).reverse.dropWhile Char.isWhitespace).reverse⟩

/-! ## Python floats -/

/-- A Python `float`: a finite value (modelled exactly as a rational),
`float("inf")`, `float("-inf")` or `float("nan")`. -/
inductive PyFloat where
  | finite (q : ℚ)
  | pinf
  | ninf
  | nan
deriving DecidableEq, Repr

namespace PyFloat

/-- Python `*` on floats: NaN absorbs, infinities follow the sign rules,
`0 * inf = nan`; finite times finite is exact rational multiplication. -/
def mul : PyFloat → PyFloat → PyFloat
  | nan, _ => nan
  | _, nan => nan
  | finite a, finite b => finite (a * b)
  | finite a, pinf => if 0 < a then pinf else if a < 0 then ninf else nan
  | finite a, ninf => if 0 < a then ninf else if a < 0 then pinf else nan
  | pinf, finite b => if 0 < b then pinf else if b < 0 then ninf else nan
  | ninf, finite b => if 0 < b then ninf else if b < 0 then pinf else nan
  | pinf, pinf => pinf
  | pinf, ninf => ninf
  | ninf, pinf => ninf
  | ninf, ninf => pinf

/-- Python `+` on floats: NaN absorbs, `inf + (-inf) = nan`, otherwise an
infinity dominates; finite plus finite is exact rational addition. -/
def add : PyFloat → PyFloat → PyFloat
  | nan, _ => nan
  | _, nan => nan
  | finite a, finite b => finite (a + b)
  | finite _, pinf => pinf
  | pinf, finite _ => pinf
  | finite _, ninf => ninf
  | ninf, finite _ => ninf
  | pinf, pinf => pinf
  | ninf, ninf => ninf
  | pinf, ninf => nan
  | ninf, pinf => nan

/-- Python `<=` on floats (any comparison with NaN is `False`). -/
def le : PyFloat → PyFloat → Bool
  | nan, _ => false
  | _, nan => false
  | finite a, finite b => decide (a ≤ b)
  | finite _, pinf => true
  | finite _, ninf => false
  | pinf, finite _ => false
  | pinf, pinf => true
  | pinf, ninf => false
  | ninf, _ => true

theorem mul_comm (a b : PyFloat) : mul a b = mul b a := by
  cases a <;> cases b <;> simp [mul, Rat.mul_comm]

end PyFloat

/-! ## Room store (`database.py`, table `rooms`) -/

/-- The `rooms` table: rows `(room_number, status)`, `room_number` primary key. -/
abbrev RoomsTable := List (String × String)

/-- `Database.get_room_status`: `SELECT status FROM rooms WHERE room_number = ?`;
returns the stored status of the first matching row, or `'available'` when no
row matches (`result[0] if result else 'available'`). -/
def get_room_status (rooms : RoomsTable) (room_number : String) : String :=
  match rooms.find? (fun p => p.1 == room_number) with
  | some p => p.2
  | none => "available"

/-- `Database.set_room_status`: `UPDATE rooms SET status = ? WHERE
room_number = ?`; overwrites the status of every row whose key matches (the
primary key makes that at most one) and touches nothing else.  A key that is
absent from the table matches no row, so the statement is a silent no-op. -/
def set_room_status (rooms : RoomsTable) (room_number status : String) :
    RoomsTable :=
  rooms.map (fun p => if p.1 == room_number then (p.1, status) else p)

/-! ## Bill ledger (`database.py`, table `bills`) -/

/-- A row of the (current-schema) `bills` table. -/
structure Bill where
  bill_no : List Char
  guest_name : String
  room_number : String
  check_in_date : String
  checkout_date : String
  nights : Int
  rate : PyFloat
  subtotal : PyFloat
  cgst : PyFloat
  sgst : PyFloat
  total : PyFloat
  date : String
deriving DecidableEq, Repr

abbrev BillsTable := List Bill

/-- Boolean "is a prefix of" on character lists (the meaning of the SQL
pattern `x || '%'` in `LIKE`). -/
def isPre : List Char → List Char → Bool
  | [], _ => true
  | _ :: _, [] => false
  | a :: as, b :: bs => a == b && isPre as bs

/-- The literal characters `BILL`. -/
def billTag : List Char := ['B', 'I', 'L', 'L']

/-- Decimal digits of `n`, most significant first, via the fuel-driven core
loop (`str(n)` in Python); `fuel` always suffices because `n < fuel`. -/
def decDigitsCore : Nat → Nat → List Char → List Char
  | 0, _, acc => acc
  | fuel + 1, n, acc =>
    if n < 10 then Nat.digitChar n :: acc
    else decDigitsCore fuel (n / 10) (Nat.digitChar (n % 10) :: acc)

/-- `str(n)` for a natural number, as a character list. -/
def decDigits (n : Nat) : List Char := decDigitsCore (n + 1) n []

/-- Python `str(n).zfill(4)`: the decimal digits of `n` left-padded with `'0'`
to a minimum width of 4. -/
def zfill4 (n : Nat) : List Char :=
  let s := decDigits n
  List.replicate (4 - s.length) '0' ++ s

/-- The number of bills whose number starts with `BILL<today>` — the
`SELECT COUNT(*) FROM bills WHERE bill_no LIKE 'BILL<date>%'` of
`generate_bill_number` (every number the system writes is upper case, so the
case-blind SQL `LIKE` coincides with this exact match on them). -/
def countToday (today : List Char) (bills : BillsTable) : Nat :=
  (bills.filter (fun b => isPre (billTag ++ today) b.bill_no)).length

/-- `Database.generate_bill_number`: `'BILL' + date_str + str(count + 1).zfill(4)`
where `date_str` is today as `YYYYMMDD` and `count` counts the existing bills
whose number starts with `BILL<date_str>`.  Pure read, writes nothing. -/
def generate_bill_number (bills : BillsTable) (today : List Char) : List Char :=
  billTag ++ today ++ zfill4 (countToday today bills + 1)

/-- `Database.save_bill`: `INSERT INTO bills ...`; the primary key on
`bill_no` makes the insert raise (caught and re-raised, no row written) when
the number already exists, otherwise the row is appended. -/
def save_bill (bills : BillsTable) (b : Bill) : Option BillsTable :=
  if bills.any (fun x => x.bill_no == b.bill_no) then none
  else some (bills ++ [b])

/-! ## Billing window (`billing_window.py`) -/

/-- The state of the form fields of a `BillingWindow`, after the two external
conversions have run: `checkin` / `checkout` are the results of
`parse_date(entry.strip())` (`none` = unparseable, otherwise the day ordinal
of the parsed midnight datetime), `rate` is the result of
`float(rate_entry.get())` (`none` = `ValueError`). -/
structure BillingInput where
  guest_name : String
  checkin_str : String
  checkout_str : String
  checkin : Option Int
  checkout : Option Int
  rate : Option PyFloat
deriving DecidableEq, Repr

/-- `BillingWindow.calculate_nights`: when both dates parse, take
`nights = (checkout_date - checkin_date).days` and return
`max(1, nights) if nights >= 1 else None`; `None` when either date fails to
parse. -/
def calculate_nights (inp : BillingInput) : Option Int :=
  match inp.checkin, inp.checkout with
  | some ci, some co =>
    let nights := co - ci
    if 1 ≤ nights then some (max 1 nights) else none
  | _, _ => none

/-- The nights figure `BillingWindow.on_date_change` writes into the
read-only nights field: the computed nights when `calculate_nights`
succeeds, and `0` (with all totals cleared) when it returns `None`. -/
def on_date_change_nights (inp : BillingInput) : Int :=
  match calculate_nights inp with
  | some n => n
  | none => 0

/-- `BillingWindow.validate_inputs`, in source order: guest name non-empty
after strip; both dates parse; `checkout_date <= checkin_date` rejected;
`calculate_nights()` must give at least 1; `float(rate)` must parse and
`rate <= 0` is rejected.  `true` = all checks passed, `false` = some
`messagebox.showerror` fired and the action is abandoned. -/
def validate_inputs (inp : BillingInput) : Bool :=
  if pyStrip inp.guest_name == "" then false
  else
    match inp.checkin with
    | none => false
    | some ci =>
      match inp.checkout with
      | none => false
      | some co =>
        if co ≤ ci then false
        else
          match calculate_nights inp with
          | none => false
          | some n =>
            if n < 1 then false
            else
              match inp.rate with
              | none => false
              | some r => if r.le (PyFloat.finite 0) then false else true

/-- `BillingWindow.get_bill_data`: recomputes nights and the money columns
(`subtotal = nights * rate`, `cgst = subtotal * 0.09`,
`sgst = subtotal * 0.09`, `total = subtotal + cgst + sgst`), draws a fresh
number from `generate_bill_number`, and assembles the record to be persisted.
`none` models the `TypeError` the Python body would raise if nights or rate
were unavailable — `generate_bill` only calls it after validation passed. -/
def get_bill_data (inp : BillingInput) (room_number : String)
    (bills : BillsTable) (today : List Char) (now : String) : Option Bill :=
  match calculate_nights inp, inp.rate with
  | some nights, some rate =>
    let subtotal := PyFloat.mul (PyFloat.finite (nights : ℚ)) rate
    let cgst := PyFloat.mul subtotal (PyFloat.finite (9 / 100))
    let sgst := PyFloat.mul subtotal (PyFloat.finite (9 / 100))
    let total := PyFloat.add (PyFloat.add subtotal cgst) sgst
    some
      { bill_no := generate_bill_number bills today
        guest_name := pyStrip inp.guest_name
        room_number := room_number
        check_in_date := pyStrip inp.checkin_str
        checkout_date := pyStrip inp.checkout_str
        nights := nights
        rate := rate
        subtotal := subtotal
        cgst := cgst
        sgst := sgst
        total := total
        date := now }
  | _, _ => none

/-- The persistent state the billing window acts on: the two tables of the
database. -/
structure AppState where
  bills : BillsTable
  rooms : RoomsTable
deriving DecidableEq, Repr

/-- `BillingWindow.generate_bill`: bail out unchanged if validation fails;
otherwise build the bill data (consuming a bill number), save it (on a
database error the handler returns with nothing written), and only then mark
the room occupied.  Receipt rendering afterwards touches no table. -/
def generate_bill (inp : BillingInput) (room_number : String)
    (today : List Char) (now : String) (st : AppState) : AppState :=
  if validate_inputs inp then
    match get_bill_data inp room_number st.bills today now with
    | none => st
    | some bd =>
      match save_bill st.bills bd with
      | none => st
      | some bills' =>
        { bills := bills', rooms := set_room_status st.rooms room_number "occupied" }
  else st

/-- `BillingWindow.print_receipt`: bail out if validation fails; otherwise
build the bill data and hand it to the receipt generator / printer.  No
`save_bill`, no `set_room_status`: the returned state is the input state, and
the second component is the rendered bill (when validation passed). -/
def print_receipt (inp : BillingInput) (room_number : String)
    (today : List Char) (now : String) (st : AppState) :
    AppState × Option Bill :=
  if validate_inputs inp then
    (st, get_bill_data inp room_number st.bills today now)
  else (st, none)

/-- `BillingWindow.checkout_room`: like `generate_bill` but the room is
marked available afterwards. -/
def checkout_room (inp : BillingInput) (room_number : String)
    (today : List Char) (now : String) (st : AppState) : AppState :=
  if validate_inputs inp then
    match get_bill_data inp room_number st.bills today now with
    | none => st
    | some bd =>
      match save_bill st.bills bd with
      | none => st
      | some bills' =>
        { bills := bills', rooms := set_room_status st.rooms room_number "available" }
  else st

/-! ## Startup schema migration (`Database.init_database`) -/

/-- A row of the legacy `bills` schema:
`bill_no, guest_name, room_number, days, rate, subtotal, cgst, sgst, total,
date` — a single `days` count and a single recorded `date` instead of the
check-in / check-out pair and `nights`.  `date` is `Option` so that the
`COALESCE(date, datetime('now'))` of the migration SQL is represented. -/
structure LegacyBill where
  bill_no : List Char
  guest_name : String
  room_number : String
  days : Int
  rate : PyFloat
  subtotal : PyFloat
  cgst : PyFloat
  sgst : PyFloat
  total : PyFloat
  date : Option String
deriving DecidableEq, Repr

/-- The `INSERT INTO bills_new ... SELECT ... FROM bills` of the migration,
one row at a time: `nights := days`,
`check_in_date := checkout_date := COALESCE(date, datetime('now'))`, every
other column copied. -/
def migrate_row (now : String) (r : LegacyBill) : Bill :=
  { bill_no := r.bill_no
    guest_name := r.guest_name
    room_number := r.room_number
    check_in_date := r.date.getD now
    checkout_date := r.date.getD now
    nights := r.days
    rate := r.rate
    subtotal := r.subtotal
    cgst := r.cgst
    sgst := r.sgst
    total := r.total
    date := r.date.getD now }

/-- The possible on-disk states of the `bills` table at startup: absent,
present in the legacy schema (`days`, no `nights`), or present in the
current schema. -/
inductive BillsSchema where
  | absent
  | legacy (rows : List LegacyBill)
  | modern (rows : BillsTable)
deriving DecidableEq, Repr

/-- `INSERT OR IGNORE INTO rooms (room_number, status) VALUES (?, 'available')`:
append a fresh `available` row unless the key already exists. -/
def insert_or_ignore_room (rooms : RoomsTable) (rn : String) : RoomsTable :=
  if rooms.any (fun p => p.1 == rn) then rooms else rooms ++ [(rn, "available")]

/-- The room-seeding loop of `init_database`, over a list of room numbers. -/
def seed_rooms : List String → RoomsTable → RoomsTable
  | [], rooms => rooms
  | rn :: rest, rooms => seed_rooms rest (insert_or_ignore_room rooms rn)

/-- The six room numbers seeded at startup. -/
def roomIds : List String := ["101", "102", "103", "104", "105", "106"]

/-- `Database.init_database`: create the `rooms` table, then — looking at the
`bills` schema — create it fresh when absent, rebuild it row by row through
`bills_new` when it still has `days` and no `nights` (dropping the old table
only after every row is copied), and leave it alone when it already has
`nights`; finally seed the six rooms with `INSERT OR IGNORE`. -/
def init_database (now : String) (bt : BillsSchema) (rooms : RoomsTable) :
    BillsSchema × RoomsTable :=
  let bt' : BillsSchema :=
    match bt with
    | BillsSchema.absent => BillsSchema.modern []
    | BillsSchema.legacy rows => BillsSchema.modern (rows.map (migrate_row now))
    | BillsSchema.modern rows => BillsSchema.modern rows
  (bt', seed_rooms roomIds rooms)

/-! ## Sequential generate-then-save runs (for the bill-number properties) -/

/-- A ledger row that carries a given bill number (the other columns do not
matter to the numbering). -/
def billWithNo (c : List Char) : Bill :=
  { bill_no := c
    guest_name := ""
    room_number := ""
    check_in_date := ""
    checkout_date := ""
    nights := 1
    rate := PyFloat.finite 0
    subtotal := PyFloat.finite 0
    cgst := PyFloat.finite 0
    sgst := PyFloat.finite 0
    total := PyFloat.finite 0
    date := "" }

/-- `n` rounds of "generate a bill number for `today`, then save a bill
carrying it" (each save succeeds: the row is appended, as `save_bill` does on
a fresh key). -/
def genSaveIter (today : List Char) : Nat → BillsTable → BillsTable
  | 0, bills => bills
  | n + 1, bills =>
    genSaveIter today n (bills ++ [billWithNo (generate_bill_number bills today)])

/-! ## Concrete fixtures used by witnesses and counterexamples -/

/-- The room store produced by a first startup on an empty database. -/
def seededRooms : RoomsTable := seed_rooms roomIds []

/-- Today as `YYYYMMDD` for 1 Jan 2025. -/
def d20250101 : List Char := ['2', '0', '2', '5', '0', '1', '0', '1']

/-- The worked example of the specification: guest `Alice`, check-in
01-01-2025 (day ordinal 739252), check-out 03-01-2025 (739254), rate 2000. -/
def sampleInput : BillingInput :=
  { guest_name := "Alice"
    checkin_str := "01-01-2025"
    checkout_str := "03-01-2025"
    checkin := some 739252
    checkout := some 739254
    rate := some (PyFloat.finite 2000) }

/-- Same-day check-in and check-out (01-01-2025 twice), everything else
valid. -/
def sameDayInput : BillingInput :=
  { guest_name := "Bob"
    checkin_str := "01-01-2025"
    checkout_str := "01-01-2025"
    checkin := some 739252
    checkout := some 739252
    rate := some (PyFloat.finite 2000) }

/-- A form whose rate entry reads `inf`: `float("inf")` succeeds and returns
positive infinity. -/
def infRateInput : BillingInput :=
  { guest_name := "Carol"
    checkin_str := "01-01-2025"
    checkout_str := "03-01-2025"
    checkin := some 739252
    checkout := some 739254
    rate := some PyFloat.pinf }

/-- A form whose rate entry reads `nan`: `float("nan")` succeeds and returns
NaN. -/
def nanRateInput : BillingInput :=
  { guest_name := "Dave"
    checkin_str := "01-01-2025"
    checkout_str := "03-01-2025"
    checkin := some 739252
    checkout := some 739254
    rate := some PyFloat.nan }

/-- A legacy-schema ledger row: 3 days at rate 1500 recorded on
`2024-12-01`. -/
def legacySample : LegacyBill :=
  { bill_no := billTag ++ ['2', '0', '2', '4', '1', '2', '0', '1'] ++ zfill4 1
    guest_name := "Eve"
    room_number := "101"
    days := 3
    rate := PyFloat.finite 1500
    subtotal := PyFloat.finite 4500
    cgst := PyFloat.finite 405
    sgst := PyFloat.finite 405
    total := PyFloat.finite 5310
    date := some "2024-12-01" }

/-! ## Helper lemmas -/

theorem isPre_append_self (l z : List Char) : isPre l (l ++ z) = true := by
  induction l with
  | nil => rfl
  | cons a as ih => simp [isPre, ih]

theorem isPre_append_left (x u v : List Char) :
    isPre (x ++ u) (x ++ v) = isPre u v := by
  induction x with
  | nil => rfl
  | cons a as ih => simp [isPre, ih]

theorem eq_of_isPre (d e s : List Char) (h : isPre d (e ++ s) = true)
    (hlen : d.length = e.length) : d = e := by
  induction d generalizing e with
  | nil =>
    cases e with
    | nil => rfl
    | cons b bs => simp at hlen
  | cons a as ih =>
    cases e with
    | nil => simp at hlen
    | cons b bs =>
      simp only [List.cons_append, isPre, Bool.and_eq_true, beq_iff_eq] at h
      obtain ⟨rfl, h2⟩ := h
      simp only [List.length_cons] at hlen
      rw [ih bs h2 (by omega)]

/-- `get_room_status` falls back to `'available'` when no row has the key. -/
theorem get_room_status_absent (rooms : RoomsTable) (r : String)
    (h : ∀ p ∈ rooms, p.1 ≠ r) : get_room_status rooms r = "available" := by
  unfold get_room_status
  have hnone : rooms.find? (fun p => p.1 == r) = none := by
    rw [List.find?_eq_none]
    intro p hp
    simp [h p hp]
  rw [hnone]

/-- `UPDATE ... WHERE room_number = r` touches nothing when no row has key
`r`. -/
theorem set_room_status_absent (rooms : RoomsTable) (r s : String)
    (h : ∀ p ∈ rooms, p.1 ≠ r) : set_room_status rooms r s = rooms := by
  unfold set_room_status
  rw [List.map_congr_left (g := id), List.map_id]
  intro p hp
  simp [h p hp]

theorem countToday_append (today : List Char) (bills : BillsTable) (b : Bill) :
    countToday today (bills ++ [b]) =
      countToday today bills +
        (if isPre (billTag ++ today) b.bill_no then 1 else 0) := by
  simp only [countToday, List.filter_append, List.length_append]
  split <;> simp_all [List.filter]

theorem countToday_eq_zero (today : List Char) (bills : BillsTable)
    (h8 : today.length = 8)
    (hwf : ∀ b ∈ bills, ∃ d s, b.bill_no = billTag ++ d ++ s ∧
      d.length = 8 ∧ d ≠ today) :
    countToday today bills = 0 := by
  unfold countToday
  rw [List.length_eq_zero, List.filter_eq_nil_iff]
  intro b hb
  obtain ⟨d, s, hno, hd8, hne⟩ := hwf b hb
  rw [hno, List.append_assoc, Bool.not_eq_true, isPre_append_left]
  cases hp : isPre today (d ++ s) with
  | false => rfl
  | true => exact absurd (eq_of_isPre today d s hp (by omega)) (Ne.symm hne)

theorem countToday_genSaveIter (today : List Char) :
    ∀ (n : Nat) (bills : BillsTable),
      countToday today (genSaveIter today n bills) = countToday today bills + n := by
  intro n
  induction n with
  | zero => intro bills; simp [genSaveIter]
  | succ m ih =>
    intro bills
    have hp : isPre (billTag ++ today)
        (billWithNo (generate_bill_number bills today)).bill_no = true := by
      show isPre (billTag ++ today) (billTag ++ today ++ _) = true
      exact isPre_append_self _ _
    rw [genSaveIter, ih, countToday_append, hp]
    simp only [if_pos]
    omega

theorem decDigitsCore_length_le :
    ∀ (fuel k n : Nat) (acc : List Char), n < 10 ^ k → n < fuel → 1 ≤ k →
      (decDigitsCore fuel n acc).length ≤ k + acc.length := by
  intro fuel
  induction fuel with
  | zero => intro k n acc _ hn _; omega
  | succ f ih =>
    intro k n acc hk hn h1
    rw [decDigitsCore]
    split
    · simp only [List.length_cons]; omega
    · rename_i h10
      have hk2 : 2 ≤ k := by
        rcases Nat.lt_or_ge k 2 with h | h
        · exfalso
          have hk1 : k = 1 := by omega
          subst hk1
          simp only [pow_one] at hk
          omega
        · exact h
      have hdiv : n / 10 < 10 ^ (k - 1) := by
        rw [Nat.div_lt_iff_lt_mul (by norm_num)]
        calc n < 10 ^ k := hk
          _ = 10 ^ (k - 1) * 10 := by
            rw [← pow_succ]
            congr 1
            omega
      have hfuel : n / 10 < f := by
        have hlt : n / 10 < n := Nat.div_lt_self (by omega) (by norm_num)
        omega
      have := ih (k - 1) (n / 10) (Nat.digitChar (n % 10) :: acc) hdiv hfuel (by omega)
      simp only [List.length_cons] at this
      omega

theorem decDigits_length_le (m : Nat) (h : m ≤ 9999) :
    (decDigits m).length ≤ 4 := by
  have h4 : m < 10 ^ 4 := by norm_num; omega
  simpa using decDigitsCore_length_le (m + 1) 4 m [] h4 (by omega) (by omega)

theorem zfill4_length (m : Nat) (h : m ≤ 9999) : (zfill4 m).length = 4 := by
  have := decDigits_length_le m h
  simp only [zfill4, List.length_append, List.length_replicate]
  omega

theorem zfill4_one : zfill4 1 = ['0', '0', '0', '1'] := by decide

/-- What a passed validation guarantees about the form fields. -/
theorem validate_sound (inp : BillingInput) (h : validate_inputs inp = true) :
    pyStrip inp.guest_name ≠ "" ∧
    ∃ ci co n r, inp.checkin = some ci ∧ inp.checkout = some co ∧ ci < co ∧
      calculate_nights inp = some n ∧ 1 ≤ n ∧ inp.rate = some r ∧
      r.le (PyFloat.finite 0) = false := by
  unfold validate_inputs at h
  by_cases hg : (pyStrip inp.guest_name == "") = true
  · rw [if_pos hg] at h; exact absurd h (by simp)
  · rw [if_neg hg] at h
    cases hci : inp.checkin with
    | none => rw [hci] at h; exact absurd h (by simp)
    | some ci =>
      rw [hci] at h
      cases hco : inp.checkout with
      | none => rw [hco] at h; exact absurd h (by simp)
      | some co =>
        rw [hco] at h
        simp only at h
        by_cases hord : co ≤ ci
        · rw [if_pos hord] at h; exact absurd h (by simp)
        · rw [if_neg hord] at h
          cases hn : calculate_nights inp with
          | none => rw [hn] at h; exact absurd h (by simp)
          | some n =>
            rw [hn] at h
            simp only at h
            by_cases hn1 : n < 1
            · rw [if_pos hn1] at h; exact absurd h (by simp)
            · rw [if_neg hn1] at h
              cases hr : inp.rate with
              | none => rw [hr] at h; exact absurd h (by simp)
              | some r =>
                rw [hr] at h
                simp only at h
                by_cases hle : r.le (PyFloat.finite 0) = true
                · rw [if_pos hle] at h; exact absurd h (by simp)
                · exact ⟨by simpa using hg, ci, co, n, r, rfl, rfl, by omega,
                    rfl, by omega, rfl, by simpa using hle⟩

/-- A non-ascending date pair makes `calculate_nights` return `None`. -/
theorem calculate_nights_none_of_le (inp : BillingInput) (ci co : Int)
    (hci : inp.checkin = some ci) (hco : inp.checkout = some co)
    (hle : co ≤ ci) : calculate_nights inp = none := by
  have : ¬ (1 ≤ co - ci) := by omega
  simp [calculate_nights, hci, hco, this]

/-- An ascending date pair makes `calculate_nights` return the whole-day
difference (on which the `max` with 1 is the identity). -/
theorem calculate_nights_of_lt (inp : BillingInput) (ci co : Int)
    (hci : inp.checkin = some ci) (hco : inp.checkout = some co)
    (h1 : 1 ≤ co - ci) :
    calculate_nights inp = some (max 1 (co - ci)) := by
  simp [calculate_nights, hci, hco, h1]

/-- A non-ascending date pair fails validation. -/
theorem validate_false_of_checkout_le (inp : BillingInput) (ci co : Int)
    (hci : inp.checkin = some ci) (hco : inp.checkout = some co)
    (hle : co ≤ ci) : validate_inputs inp = false := by
  unfold validate_inputs
  rw [hci, hco]
  split
  · rfl
  · simp only
    rw [if_pos hle]

theorem any_key_insert_or_ignore (rooms : RoomsTable) (rn : String) :
    (insert_or_ignore_room rooms rn).any (fun p => p.1 == rn) = true := by
  unfold insert_or_ignore_room
  split
  · assumption
  · simp [List.any_append]

theorem any_key_mono (rooms : RoomsTable) (rn x : String)
    (h : rooms.any (fun p => p.1 == x) = true) :
    (insert_or_ignore_room rooms rn).any (fun p => p.1 == x) = true := by
  unfold insert_or_ignore_room
  split
  · exact h
  · simp [List.any_append, h]

theorem seed_preserves_any (l : List String) :
    ∀ (rooms : RoomsTable) (x : String),
      rooms.any (fun p => p.1 == x) = true →
      (seed_rooms l rooms).any (fun p => p.1 == x) = true := by
  induction l with
  | nil => intro rooms x h; exact h
  | cons rn rest ih => intro rooms x h; exact ih _ _ (any_key_mono _ _ _ h)

theorem seed_adds (l : List String) :
    ∀ (rooms : RoomsTable) (rn : String), rn ∈ l →
      (seed_rooms l rooms).any (fun p => p.1 == rn) = true := by
  induction l with
  | nil => intro _ _ h; cases h
  | cons a rest ih =>
    intro rooms rn h
    rcases List.mem_cons.mp h with rfl | h2
    · exact seed_preserves_any rest _ _ (any_key_insert_or_ignore _ _)
    · exact ih _ _ h2

theorem insert_or_ignore_noop (rooms : RoomsTable) (rn : String)
    (h : rooms.any (fun p => p.1 == rn) = true) :
    insert_or_ignore_room rooms rn = rooms := by
  unfold insert_or_ignore_room
  rw [if_pos h]

theorem seed_noop (l : List String) :
    ∀ rooms : RoomsTable, (∀ rn ∈ l, rooms.any (fun p => p.1 == rn) = true) →
      seed_rooms l rooms = rooms := by
  induction l with
  | nil => intro rooms _; rfl
  | cons a rest ih =>
    intro rooms h
    rw [seed_rooms, insert_or_ignore_noop _ _ (h a (by simp))]
    exact ih _ (fun rn hrn => h rn (by simp [hrn]))

theorem seed_rooms_idem (l : List String) (rooms : RoomsTable) :
    seed_rooms l (seed_rooms l rooms) = seed_rooms l rooms :=
  seed_noop l _ (fun rn hrn => seed_adds l rooms rn hrn)

/-- Set-then-get on a room the store knows returns the status just set. -/
theorem get_set_room_status (rooms : RoomsTable) (r s : String)
    (hmem : rooms.any (fun p => p.1 == r) = true) :
    get_room_status (set_room_status rooms r s) r = s := by
  induction rooms with
  | nil => simp at hmem
  | cons a tl ih =>
    simp only [List.any_cons, Bool.or_eq_true] at hmem
    have hstep : set_room_status (a :: tl) r s
        = (if a.1 == r then (a.1, s) else a) :: set_room_status tl r s := rfl
    by_cases ha : (a.1 == r) = true
    · rw [hstep, if_pos ha]
      unfold get_room_status
      simp only [List.find?_cons]
      have ha2 : ((a.1, s).1 == r) = true := ha
      rw [ha2]
    · rw [hstep, if_neg ha]
      unfold get_room_status
      simp only [List.find?_cons]
      have ha2 : (a.1 == r) = false := by simpa using ha
      rw [ha2]
      have htl : tl.any (fun p => p.1 == r) = true := by
        rcases hmem with h | h
        · exact absurd h ha
        · exact h
      exact ih htl

/-- An application state as after a first startup: empty ledger, six seeded
rooms. -/
def demoState : AppState := { bills := [], rooms := seededRooms }

/-! ## Claims -/

/-- C1: for every accepted billing input (valid guest name, valid dates with
check-out after check-in, rate accepted by validation), the bill record built
for persistence by `get_bill_data` satisfies `subtotal = nights * rate`,
`cgst = 0.09 * subtotal`, `sgst = 0.09 * subtotal` and
`total = subtotal + cgst + sgst` (exact equalities in the rational model of
finite floats, i.e. up to the 2-decimal floating rounding the specification
allows), with the recorded `nights` at least 1. -/
theorem C1_bill_record_formulas (inp : BillingInput) (room_number : String)
    (bills : BillsTable) (today : List Char) (now : String)
    (h : validate_inputs inp = true) :
    ∃ bd, get_bill_data inp room_number bills today now = some bd ∧
      1 ≤ bd.nights ∧
      bd.subtotal = PyFloat.mul (PyFloat.finite (bd.nights : ℚ)) bd.rate ∧
      bd.cgst = PyFloat.mul (PyFloat.finite (9 / 100)) bd.subtotal ∧
      bd.sgst = PyFloat.mul (PyFloat.finite (9 / 100)) bd.subtotal ∧
      bd.total = PyFloat.add (PyFloat.add bd.subtotal bd.cgst) bd.sgst := by
  obtain ⟨-, ci, co, n, r, hci, hco, hlt, hn, hn1, hr, hle⟩ := validate_sound inp h
  have hbd : get_bill_data inp room_number bills today now = some
      { bill_no := generate_bill_number bills today
        guest_name := pyStrip inp.guest_name
        room_number := room_number
        check_in_date := pyStrip inp.checkin_str
        checkout_date := pyStrip inp.checkout_str
        nights := n
        rate := r
        subtotal := PyFloat.mul (PyFloat.finite (n : ℚ)) r
        cgst := PyFloat.mul (PyFloat.mul (PyFloat.finite (n : ℚ)) r)
          (PyFloat.finite (9 / 100))
        sgst := PyFloat.mul (PyFloat.mul (PyFloat.finite (n : ℚ)) r)
          (PyFloat.finite (9 / 100))
        total := PyFloat.add
          (PyFloat.add (PyFloat.mul (PyFloat.finite (n : ℚ)) r)
            (PyFloat.mul (PyFloat.mul (PyFloat.finite (n : ℚ)) r)
              (PyFloat.finite (9 / 100))))
          (PyFloat.mul (PyFloat.mul (PyFloat.finite (n : ℚ)) r)
            (PyFloat.finite (9 / 100)))
        date := now } := by
    unfold get_bill_data
    rw [hn, hr]
  exact ⟨_, hbd, hn1, rfl, PyFloat.mul_comm _ _, PyFloat.mul_comm _ _, rfl⟩

/-- C1 witness: the specification's worked example (check-in 01-01-2025,
check-out 03-01-2025, rate 2000) on an empty ledger. -/
theorem C1_bill_record_formulas_witness :
    ∃ bd, get_bill_data sampleInput "101" [] d20250101 "2025-01-03 10:00:00"
        = some bd ∧
      1 ≤ bd.nights ∧
      bd.subtotal = PyFloat.mul (PyFloat.finite (bd.nights : ℚ)) bd.rate ∧
      bd.cgst = PyFloat.mul (PyFloat.finite (9 / 100)) bd.subtotal ∧
      bd.sgst = PyFloat.mul (PyFloat.finite (9 / 100)) bd.subtotal ∧
      bd.total = PyFloat.add (PyFloat.add bd.subtotal bd.cgst) bd.sgst :=
  C1_bill_record_formulas sampleInput "101" [] d20250101 "2025-01-03 10:00:00"
    (by decide)

/-- C2: `generate_bill_number` always returns `BILL` + today + the zero-padded
decimal of 1 + the number of existing bills whose number starts with
`BILL<today>` (a width-4 field as long as the day has at most 9998 prior
bills); under sequential generate-then-save calls starting from a ledger whose
bills all carry a different (well-formed, 8-character) date, the n-th number
generated is `BILL<today><zfill4 (n+1)>` — the numeric suffixes 1, 2, 3, …
are strictly increasing and start at `0001` no matter how many bills earlier
days contributed. -/
theorem C2_bill_number_sequence (today : List Char) (bills : BillsTable)
    (h8 : today.length = 8)
    (hwf : ∀ b ∈ bills, ∃ d s, b.bill_no = billTag ++ d ++ s ∧
      d.length = 8 ∧ d ≠ today) :
    (∀ bs : BillsTable, generate_bill_number bs today
        = billTag ++ today ++ zfill4 (countToday today bs + 1)) ∧
    (∀ bs : BillsTable, countToday today bs + 1 ≤ 9999 →
        (zfill4 (countToday today bs + 1)).length = 4) ∧
    (∀ n : Nat, generate_bill_number (genSaveIter today n bills) today
        = billTag ++ today ++ zfill4 (n + 1)) ∧
    generate_bill_number bills today = billTag ++ today ++ ['0', '0', '0', '1'] := by
  have h0 : countToday today bills = 0 := countToday_eq_zero today bills h8 hwf
  refine ⟨fun bs => rfl, fun bs hle => zfill4_length _ hle, fun n => ?_, ?_⟩
  · rw [generate_bill_number, countToday_genSaveIter, h0]
    norm_num
  · rw [generate_bill_number, h0, ← zfill4_one]

/-- C2 witness: on 1 Jan 2025 with an empty ledger, the third sequential
generate-then-save call produces suffix `0003`. -/
theorem C2_bill_number_sequence_witness :
    generate_bill_number (genSaveIter d20250101 2 []) d20250101
      = billTag ++ d20250101 ++ zfill4 3 :=
  (C2_bill_number_sequence d20250101 [] (by decide) (by simp)).2.2.1 2

/-- C3 counterexample: for a parseable same-day pair (01-01-2025 twice) the
claim predicts a computed nights of `max 1 0 = 1`, but `calculate_nights`
returns `None` (and `on_date_change` displays `0`), so the claimed equality
fails for this pair of parseable dates. -/
theorem C3_nights_counterexample :
    calculate_nights sameDayInput = none ∧
    calculate_nights sameDayInput ≠ some (max 1 ((739252 : Int) - 739252)) ∧
    on_date_change_nights sameDayInput = 0 := by
  decide

/-- C3 (amended): for parseable dates with check-out after check-in the
computed nights equal `max 1 (checkout - checkin)` (= the whole-day
difference); when `checkout <= checkin` the computation yields no nights
(`None`, previewed as 0) and the input fails validation, so it is rejected
before saving; and every input that passes validation has computed
nights ≥ 1. -/
theorem C3_nights_amended :
    (∀ (inp : BillingInput) (ci co : Int), inp.checkin = some ci →
      inp.checkout = some co → 1 ≤ co - ci →
      calculate_nights inp = some (max 1 (co - ci))) ∧
    (∀ (inp : BillingInput) (ci co : Int), inp.checkin = some ci →
      inp.checkout = some co → co ≤ ci →
      calculate_nights inp = none ∧ validate_inputs inp = false) ∧
    (∀ inp : BillingInput, validate_inputs inp = true →
      ∃ n, calculate_nights inp = some n ∧ 1 ≤ n) := by
  refine ⟨fun inp ci co hci hco h1 => calculate_nights_of_lt inp ci co hci hco h1,
    fun inp ci co hci hco hle =>
      ⟨calculate_nights_none_of_le inp ci co hci hco hle,
       validate_false_of_checkout_le inp ci co hci hco hle⟩,
    fun inp h => ?_⟩
  obtain ⟨-, ci, co, n, r, hci, hco, hlt, hn, hn1, hr, hle⟩ := validate_sound inp h
  exact ⟨n, hn, hn1⟩

/-- C3 witness: the two-night example computes `max 1 2`, and the same-day
input computes no nights and fails validation. -/
theorem C3_nights_amended_witness :
    calculate_nights sampleInput = some (max 1 ((739254 : Int) - 739252)) ∧
    calculate_nights sameDayInput = none ∧
    validate_inputs sameDayInput = false :=
  ⟨C3_nights_amended.1 sampleInput 739252 739254 rfl rfl (by decide),
   (C3_nights_amended.2.1 sameDayInput 739252 739252 rfl rfl (by decide)).1,
   (C3_nights_amended.2.1 sameDayInput 739252 739252 rfl rfl (by decide)).2⟩

/-- C4: when the check-out date is not strictly after the check-in date,
`generate_bill` is rejected by validation before any effect: the state is
returned unchanged, so no bill row is written (no number consumed) and the
room store, hence every room's stored status, is untouched. -/
theorem C4_same_day_no_persistence (inp : BillingInput) (room_number : String)
    (today : List Char) (now : String) (st : AppState) (ci co : Int)
    (hci : inp.checkin = some ci) (hco : inp.checkout = some co)
    (hle : co ≤ ci) :
    generate_bill inp room_number today now st = st ∧
    (generate_bill inp room_number today now st).bills = st.bills ∧
    (generate_bill inp room_number today now st).rooms = st.rooms := by
  have hv := validate_false_of_checkout_le inp ci co hci hco hle
  have hmain : generate_bill inp room_number today now st = st := by
    simp [generate_bill, hv]
  exact ⟨hmain, by rw [hmain], by rw [hmain]⟩

/-- C4 witness: the same-day example on the freshly seeded state. -/
theorem C4_same_day_no_persistence_witness :
    generate_bill sameDayInput "101" d20250101 "2025-01-01 10:00:00" demoState
        = demoState ∧
    (generate_bill sameDayInput "101" d20250101 "2025-01-01 10:00:00"
        demoState).bills = demoState.bills ∧
    (generate_bill sameDayInput "101" d20250101 "2025-01-01 10:00:00"
        demoState).rooms = demoState.rooms :=
  C4_same_day_no_persistence sameDayInput "101" d20250101 "2025-01-01 10:00:00"
    demoState 739252 739252 rfl rfl (by decide)

/-- C5: startup on a legacy-schema ledger migrates every row with
`nights := days` and `check_in_date := checkout_date :=` the row's recorded
date, drops no row (the migrated table has exactly one row per legacy row,
with key fields preserved), and a second startup run on the migrated ledger
and seeded rooms changes nothing. -/
theorem C5_legacy_migration (now now2 : String) (rows : List LegacyBill)
    (rooms rooms2 : RoomsTable) :
    (init_database now (BillsSchema.legacy rows) rooms).1
        = BillsSchema.modern (rows.map (migrate_row now)) ∧
    (rows.map (migrate_row now)).length = rows.length ∧
    (∀ r ∈ rows, ∀ d, r.date = some d →
      (migrate_row now r).nights = r.days ∧
      (migrate_row now r).check_in_date = d ∧
      (migrate_row now r).checkout_date = d ∧
      (migrate_row now r).bill_no = r.bill_no ∧
      (migrate_row now r).guest_name = r.guest_name ∧
      (migrate_row now r).room_number = r.room_number ∧
      (migrate_row now r).total = r.total) ∧
    (∀ bt : BillsSchema,
      init_database now2 (init_database now bt rooms2).1
          (init_database now bt rooms2).2
        = init_database now bt rooms2) := by
  refine ⟨rfl, by simp, ?_, ?_⟩
  · intro r hr d hd
    simp [migrate_row, hd]
  · intro bt
    cases bt <;> simp [init_database, seed_rooms_idem]

/-- C5 witness: a single legacy row with `days = 3` and recorded date
`2024-12-01` migrates to `nights = 3` and both stay dates equal to that
recorded date; re-running startup is the identity. -/
theorem C5_legacy_migration_witness :
    (init_database "N" (BillsSchema.legacy [legacySample]) []).1
        = BillsSchema.modern ([legacySample].map (migrate_row "N")) ∧
    (migrate_row "N" legacySample).nights = 3 ∧
    (migrate_row "N" legacySample).check_in_date = "2024-12-01" ∧
    (migrate_row "N" legacySample).checkout_date = "2024-12-01" ∧
    init_database "M" (init_database "N" (BillsSchema.legacy [legacySample]) []).1
        (init_database "N" (BillsSchema.legacy [legacySample]) []).2
      = init_database "N" (BillsSchema.legacy [legacySample]) [] := by
  obtain ⟨h1, h2, h3, h4⟩ := C5_legacy_migration "N" "M" [legacySample] [] []
  obtain ⟨m1, m2, m3, -⟩ := h3 legacySample (by simp) "2024-12-01" rfl
  exact ⟨h1, m1, m2, m3, h4 (BillsSchema.legacy [legacySample])⟩

/-- C6 (code bug): validation only rejects a rate that fails to parse or
compares `<= 0`; `float("inf")` and `float("nan")` both parse and both make
`rate <= 0` false, so these non-finite rates pass validation and
`generate_bill` persists a bill row for them — contradicting the requirement
that any non-finite rate blocks bill generation before persistence. -/
theorem C6_nonfinite_rate_accepted :
    validate_inputs infRateInput = true ∧
    validate_inputs nanRateInput = true ∧
    (generate_bill infRateInput "101" d20250101 "2025-01-03 10:00:00"
        demoState).bills.length = demoState.bills.length + 1 ∧
    (generate_bill nanRateInput "101" d20250101 "2025-01-03 10:00:00"
        demoState).bills.length = demoState.bills.length + 1 := by
  decide

/-- C7 counterexample: on the seeded six-room store, `set_status` for the
unknown identifier `201` followed by `get_status` yields `available`, not the
`occupied` that was set — the round-trip claim fails for identifiers absent
from the store (the `UPDATE` matches no row). -/
theorem C7_roundtrip_counterexample :
    get_room_status (set_room_status seededRooms "201" "occupied") "201"
        ≠ "occupied" ∧
    get_room_status (set_room_status seededRooms "201" "occupied") "201"
        = "available" := by
  decide

/-- C7 (amended): for every room identifier that is present in the room store
and status `s ∈ {available, occupied}`, `set_status(r, s)` followed by
`get_status(r)` returns `s`. -/
theorem C7_status_roundtrip_amended (rooms : RoomsTable) (r s : String)
    (hmem : rooms.any (fun p => p.1 == r) = true)
    (_hs : s = "available" ∨ s = "occupied") :
    get_room_status (set_room_status rooms r s) r = s :=
  get_set_room_status rooms r s hmem

/-- C7 witness: seeded room `101` set to `occupied` reads back `occupied`. -/
theorem C7_status_roundtrip_witness :
    get_room_status (set_room_status seededRooms "101" "occupied") "101"
      = "occupied" :=
  C7_status_roundtrip_amended seededRooms "101" "occupied" (by decide)
    (Or.inr rfl)

/-- C8: `get_status` on an identifier with no row in the room store returns
`available` — a total, fail-open default rather than an error or an absent
result. -/
theorem C8_unknown_room_available (rooms : RoomsTable) (r : String)
    (h : ∀ p ∈ rooms, p.1 ≠ r) :
    get_room_status rooms r = "available" :=
  get_room_status_absent rooms r h

/-- C8 witness: room `999` is not in the seeded store and reads
`available`. -/
theorem C8_unknown_room_available_witness :
    get_room_status seededRooms "999" = "available" :=
  C8_unknown_room_available seededRooms "999" (by decide)

/-- C9: `set_status` on an identifier with no row in the room store is a
silent no-op — the store is returned unchanged (no row created or modified)
and a subsequent `get_status` on that identifier still reads `available`. -/
theorem C9_set_unknown_noop (rooms : RoomsTable) (r s : String)
    (h : ∀ p ∈ rooms, p.1 ≠ r) :
    set_room_status rooms r s = rooms ∧
    get_room_status (set_room_status rooms r s) r = "available" := by
  have h1 := set_room_status_absent rooms r s h
  exact ⟨h1, by rw [h1]; exact get_room_status_absent rooms r h⟩

/-- C9 witness: setting unknown room `999` to `occupied` leaves the seeded
store unchanged and it still reads `available`. -/
theorem C9_set_unknown_noop_witness :
    set_room_status seededRooms "999" "occupied" = seededRooms ∧
    get_room_status (set_room_status seededRooms "999" "occupied") "999"
      = "available" :=
  C9_set_unknown_noop seededRooms "999" "occupied" (by decide)

/-- C10: for any input that passes validation, `print_receipt` renders a
receipt document (a bill record is produced for the exporter) while the
returned application state — the bills table and the rooms table — is exactly
the input state: nothing is written to the ledger and no room status
changes. -/
theorem C10_print_receipt_no_writes (inp : BillingInput) (room_number : String)
    (today : List Char) (now : String) (st : AppState)
    (h : validate_inputs inp = true) :
    (print_receipt inp room_number today now st).1 = st ∧
    ((print_receipt inp room_number today now st).2).isSome = true := by
  obtain ⟨-, ci, co, n, r, hci, hco, hlt, hn, hn1, hr, hle⟩ := validate_sound inp h
  constructor
  · simp [print_receipt, h]
  · simp [print_receipt, h, get_bill_data, hn, hr]

/-- C10 witness: printing a receipt for the worked example leaves the seeded
state untouched and produces a document. -/
theorem C10_print_receipt_no_writes_witness :
    (print_receipt sampleInput "101" d20250101 "2025-01-03 10:00:00"
        demoState).1 = demoState ∧
    ((print_receipt sampleInput "101" d20250101 "2025-01-03 10:00:00"
        demoState).2).isSome = true :=
  C10_print_receipt_no_writes sampleInput "101" d20250101 "2025-01-03 10:00:00"
    demoState (by decide)

end POS
